import Mathlib

/-!
Verification of the WEX FSM pricebook pipeline (src/app.py) against its
natural-language specification.  The Python source is shallowly embedded:
each method of the class WEXFSMPipeline becomes a Lean definition over
explicit data (cells are strings, exact rationals, or a NaN marker; the
nondeterministic web lookup is parameterised by an explicit response
oracle).  Theorems at the end of the file settle the specification claims.
-/

set_option linter.unusedVariables false

namespace WexPB

/-- Value of one spreadsheet cell after pandas ingestion: a string, a
number (int/float, modelled exactly as a rational), or the NaN marker that
pandas puts in empty cells. -/
inductive CellVal where
  | str : String → CellVal
  | num : ℚ → CellVal
  | nan : CellVal
deriving DecidableEq, Repr

/-- A row mapping as produced by DataFrame.to_dict: ordered association
list from column label to cell value (Python dicts preserve insertion
order). -/
abbrev Row := List (String × CellVal)

/-! ### String helpers mirroring the Python primitives used in app.py -/

/-- Python str.lower, for the ASCII data this pipeline handles. -/
def strLower (s : String) : String := ⟨s.data.map Char.toLower⟩

/-- Python slicing s[:n] (first n characters). -/
def strTake (s : String) (n : ℕ) : String := ⟨s.data.take n⟩

/-- Whitespace characters removed by Python str.strip. -/
def isPySpace (c : Char) : Bool :=
  c = ' ' || c = '\t' || c = '\n' || c = '\r' || c = '\x0b' || c = '\x0c'

/-- Python str.strip. -/
def pyStrip (s : String) : String :=
  ⟨((s.data.dropWhile isPySpace).reverse.dropWhile isPySpace).reverse⟩

/-- Whether the character list n occurs at the head of h. -/
def leadMatch : List Char → List Char → Bool
  | [], _ => true
  | _ :: _, [] => false
  | a :: as, b :: bs => a = b && leadMatch as bs

/-- Helper for substring search: does needle occur anywhere in hay? -/
def subAux (needle : List Char) : List Char → Bool
  | [] => needle.isEmpty
  | c :: rest => leadMatch needle (c :: rest) || subAux needle rest

/-- Python substring test: needle in hay. -/
def containsSub (hay needle : String) : Bool := subAux needle.data hay.data

/-- Python str.startswith for a single-character dollar sign. -/
def startsDollar (s : String) : Bool :=
  match s.data with
  | '$' :: _ => true
  | _ => false

/-- Python str.title over ASCII: upper-case a letter that begins an
alphabetic run, lower-case the rest. -/
def pyTitleAux : Bool → List Char → List Char
  | _, [] => []
  | prevAl, c :: rest =>
    (if c.isAlpha then (if prevAl then c.toLower else c.toUpper) else c) ::
      pyTitleAux c.isAlpha rest

/-- Python str.title. -/
def pyTitle (s : String) : String := ⟨pyTitleAux false s.data⟩

/-- Modelled rendering of Python str() on a float cell.  It is exact for
integral floats (str(50.0) is "50.0"); for non-integral values a
placeholder rendering is used — no theorem below depends on the rendering
of a non-integral numeric cell. -/
def pyFloatStr (q : ℚ) : String :=
  if q.den = 1 then toString q.num ++ ".0" else toString q.num ++ "/" ++ toString q.den

/-- Python str() of a cell value (str(nan) is "nan"). -/
def pyStr : CellVal → String
  | .str s => s
  | .num q => pyFloatStr q
  | .nan => "nan"

/-! ### Model of the price regex

app.py line 120 runs re.search of the pattern dollar-question, group of
one-or-more digits-or-commas, optional dot, zero-to-two digits, on the cell
text, then float(group(1).replace(",", "")), skipping the cell when either
step fails.  Because the dollar sign is outside the capture group and the
suffix parts are optional, the captured group is always: the maximal run
of digits/commas starting at the leftmost digit-or-comma of the string,
followed (when a dot comes next) by the dot and up to two further digits. -/

/-- Character class of digit-or-comma, the repeated class of the pattern. -/
def isDC (c : Char) : Bool := c.isDigit || c = ','

/-- The captured group when a match starts at the head of l: maximal
digit/comma run, then an optional dot with up to two digits (greedy). -/
def grabGroup (l : List Char) : List Char :=
  let run := l.takeWhile isDC
  match l.dropWhile isDC with
  | '.' :: r2 => run ++ '.' :: (r2.takeWhile Char.isDigit).take 2
  | _ => run

/-- Leftmost-match search for the price pattern: the captured group of
re.search, if any position matches. -/
def findGroup : List Char → Option (List Char)
  | [] => none
  | c :: rest => if isDC c then some (grabGroup (c :: rest)) else findGroup rest

/-- Numeric value of a digit list read in base 10. -/
def digitsVal (l : List Char) : ℕ :=
  l.foldl (fun a c => a * 10 + (c.toNat - 48)) 0

/-- Python float() on the comma-stripped captured group (digits, optional
dot, at most two fraction digits).  float raises — modelled as none — when
the text holds no digit at all (empty or a lone dot).  The decimal value
ipart.fpart is the rational (ipart times ten to the fraction width plus
fpart) over ten to the fraction width. -/
def pyFloatParse (l : List Char) : Option ℚ :=
  let ip := l.takeWhile (fun c => c ≠ '.')
  let fp := match l.dropWhile (fun c => c ≠ '.') with
    | '.' :: r => r
    | _ => []
  if ip.isEmpty && fp.isEmpty then none
  else some (mkRat (digitsVal ip * 10 ^ fp.length + digitsVal fp) (10 ^ fp.length))

/-- Full model of the string branch of extract_price on one cell: regex
search, comma strip, float parse. -/
def parsePrice (s : String) : Option ℚ :=
  match findGroup s.data with
  | none => none
  | some g => pyFloatParse (g.filter (fun c => c ≠ ','))

/-! ### FieldExtractor (app.py lines 98-126) -/

/-- Condition of the column-label loop of extract_part_number on one key. -/
def keyHit (k : String) : Bool :=
  let kl := strLower k
  containsSub kl "model" || containsSub kl "part" || containsSub kl "item" || containsSub kl "#"

/-- Body of the first loop of extract_part_number on one (key, value)
pair: the value this iteration would return, if any. -/
def colPick (k : String) (v : CellVal) : Option String :=
  if keyHit k then
    let pn := pyStrip (pyStr v)
    if pn ≠ "" ∧ 2 < pn.length ∧ pn ≠ "nan" then some pn else none
  else none

/-- Character class of the fallback pattern of extract_part_number:
upper-case letters, digits, hyphen. -/
def isUpChar (c : Char) : Bool := ('A' ≤ c && c ≤ 'Z') || c.isDigit || c = '-'

/-- Body of the second (fallback) loop of extract_part_number on one cell
value. -/
def patPick (v : CellVal) : Option String :=
  let vs := pyStrip (pyStr v)
  if vs ≠ "" ∧ 4 ≤ vs.length ∧ vs.length ≤ 20 ∧ ¬startsDollar vs ∧ vs.data.all isUpChar
  then some vs else none

/-- WEXFSMPipeline.extract_part_number: first loop scans (key, value)
pairs in row order returning early; on fall-through the second loop scans
values; otherwise the empty string. -/
def extract_part_number (row : Row) : String :=
  match row.findSome? (fun kv => colPick kv.1 kv.2) with
  | some pn => pn
  | none =>
    match row.findSome? (fun kv => patPick kv.2) with
    | some v => v
    | none => ""

/-- Body of the single loop of extract_price on one cell: a numeric cell
greater than zero yields its value; a string cell yields its parsed price
match when regex search and float both succeed; anything else (numeric
cell not greater than zero, NaN, unparsable string) yields nothing and the
loop continues. -/
def cellPrice : CellVal → Option ℚ
  | .num v => if 0 < v then some v else none
  | .str s => parsePrice s
  | .nan => none

/-- WEXFSMPipeline.extract_price: one pass over the cell values in row
order, returning at the first cell that produces a value, else 0.0. -/
def extract_price (row : Row) : ℚ :=
  (row.findSome? (fun kv => cellPrice kv.2)).getD 0

end WexPB

namespace WexPB

/-! ### Categorizer and LaborEstimator (app.py lines 50-69, 170-177) -/

/-- The fixed taxonomy, in the declared (insertion) order of the Python
dict hvac_categories. -/
def hvac_categories : List (String × List String) :=
  [("compressor", ["compressor", "scroll", "reciprocating", "copeland", "tecumseh", "piston"]),
   ("refrigerant", ["refrigerant", "r410", "r22", "r407", "coolant", "charge"]),
   ("motor", ["motor", "blower", "fan motor", "condenser fan", "indoor fan"]),
   ("capacitor", ["capacitor", "run cap", "start cap", "mfd", "microfarad"]),
   ("valve", ["valve", "expansion valve", "check valve", "solenoid", "txv"]),
   ("coil", ["coil", "evaporator", "condenser coil", "heat exchanger"]),
   ("thermostat", ["thermostat", "programmable", "digital", "smart", "control"]),
   ("filter", ["filter", "air filter", "furnace filter", "media", "merv"]),
   ("ductwork", ["duct", "ductboard", "insulation", "ductless"]),
   ("relay", ["relay", "defrost", "contactor", "switch"]),
   ("transformer", ["transformer", "low voltage", "24v"]),
   ("compressor_oil", ["oil", "lubricant", "pag", "mineral oil"])]

/-- Whether some keyword of a category is a substring of the lowered
text: one iteration of the outer loop of categorize_part. -/
def catHit (text : String) (ck : String × List String) : Bool :=
  ck.2.any (fun kw => containsSub (strLower text) kw)

/-- WEXFSMPipeline.categorize_part: lower the text, return the first
category (declared order) with a keyword substring hit, else "other". -/
def categorize_part (text : String) : String :=
  (hvac_categories.findSome?
    (fun ck => if catHit text ck then some ck.1 else none)).getD "other"

/-- The fixed category to labor-hours table (app.py lines 65-69). -/
def labor_hours_map : List (String × ℚ) :=
  [("compressor", 8), ("refrigerant", 3), ("motor", 2), ("capacitor", 3/2),
   ("valve", 2), ("coil", 6), ("thermostat", 1), ("filter", 1/2), ("ductwork", 4),
   ("relay", 1), ("transformer", 3/2), ("compressor_oil", 2)]

/-- Python labor_hours_map.get(category, 2.0). -/
def laborHoursFor (category : String) : ℚ :=
  ((labor_hours_map.find? (fun kv => kv.1 == category)).map (fun kv => kv.2)).getD 2

/-! ### TableIngestor header detection (app.py lines 71-77) -/

/-- The fixed header keyword list of find_header_row. -/
def headerKeywords : List String :=
  ["Part", "Model", "Item", "Description", "Price", "Bosch #", "System Cost", "Product", "#"]

/-- Rendered text of a row inside find_header_row: space-join of the
lowered str() of each cell. -/
def rowText (row : List CellVal) : String :=
  String.intercalate " " (row.map (fun v => strLower (pyStr v)))

/-- Whether a row triggers find_header_row: some lowered keyword is a
substring of the rendered row text. -/
def rowHit (row : List CellVal) : Bool :=
  headerKeywords.any (fun kw => containsSub (rowText row) (strLower kw))

/-- The indexed scan of find_header_row; the counter carries the running
row index, and exhaustion returns the literal 0 of the source. -/
def findHeaderAux : List (List CellVal) → ℕ → ℕ
  | [], _ => 0
  | r :: rest, i => if rowHit r then i else findHeaderAux rest (i + 1)

/-- WEXFSMPipeline.find_header_row. -/
def find_header_row (df : List (List CellVal)) : ℕ := findHeaderAux df 0

end WexPB

namespace WexPB

/-! ### OEM web lookup (app.py lines 128-168)

The requests.get call is nondeterministic external I/O; it is modelled by
an explicit oracle of type Option HttpResponse: none stands for any raised
exception (transport error, timeout, unparseable page — the bare except of
the source), some r for a delivered response.  raise_for_status turns a
status of 400 or more back into the exception path. -/

/-- Observable content of the HTTP response that web_search_part consumes:
status code, the texts of the result-snippet divs, and the full page
text. -/
structure HttpResponse where
  status : ℕ
  snippets : List String
  pageText : String
deriving DecidableEq, Repr

/-- WEXFSMPipeline.web_search_part: returns (description, weight).  An
empty part number returns immediately; an exception (oracle none) or an
error status returns ("", 0); on a 200 response the first non-empty
snippet truncated to 200 characters wins, else the first 300 characters of
the page text when they contain the part number case-insensitively, else
("", 0.5); a non-200, non-error status also yields ("", 0.5). -/
def web_search_part (part_number brand domain : String)
    (resp : Option HttpResponse) : String × ℚ :=
  if part_number = "" then ("", 0)
  else
    match resp with
    | none => ("", 0)
    | some r =>
      if 400 ≤ r.status then ("", 0)
      else if r.status = 200 then
        match r.snippets.filter (fun s => s ≠ "") with
        | s :: _ => (strTake s 200, 1)
        | [] =>
          let tc := strTake r.pageText 300
          if containsSub (strLower tc) (strLower part_number) then (tc, 4/5)
          else ("", 1/2)
      else ("", 1/2)

/-! ### OEM-lookup enricher (app.py lines 179-217) -/

/-- The canonical extracted record: the data dict built by
extract_with_oem_lookup, field names as in the source. -/
structure PartRecord where
  Manufacturer : String
  Model_Number : String
  Part_Number : String
  Cost : ℚ
  Folder_1 : String
  Folder_2 : String
  Standard_Name : String
  Description : String
  Labor_Hours : ℚ
  Confidence_Score : ℕ
  OEM_Search_Status : String
deriving DecidableEq, Repr

/-- The rendered row text of extract_with_oem_lookup: " | ".join of
"key: value" over the cells pandas regards as present (notna). -/
def textRepr (row : Row) : String :=
  String.intercalate " | "
    ((row.filter (fun kv => kv.2 ≠ CellVal.nan)).map
      (fun kv => kv.1 ++ ": " ++ pyStr kv.2))

/-- WEXFSMPipeline.extract_with_oem_lookup.  The web lookup happens only
when a part number was extracted; its outcome is the oracle argument. -/
def extract_with_oem_lookup (row : Row) (brand domain : String)
    (resp : Option HttpResponse) : PartRecord :=
  let part_number := extract_part_number row
  let cost := extract_price row
  let text_repr := textRepr row
  let oem_description :=
    if part_number ≠ "" then (web_search_part part_number brand domain resp).1 else ""
  let description := if oem_description ≠ "" then oem_description else strTake text_repr 150
  let category := categorize_part (description ++ " " ++ part_number)
  let confidence :=
    min 100 (60 + (if part_number ≠ "" then 15 else 0)
               + (if 0 < cost then 10 else 0)
               + (if oem_description ≠ "" then 15 else 0))
  { Manufacturer := brand
    Model_Number := part_number
    Part_Number := part_number
    Cost := cost
    Folder_1 := "HVAC Components"
    Folder_2 := pyTitle category
    Standard_Name := if part_number ≠ "" then brand ++ " " ++ part_number else brand
    Description := description
    Labor_Hours := laborHoursFor category
    Confidence_Score := confidence
    OEM_Search_Status := if oem_description ≠ "" then "Found" else "Not Found" }

/-- The processing loop of the main script (app.py lines 305-309): one
enrichment call and one append per ingested row; each row carries its own
lookup oracle. -/
def process_batch (items : List (Row × Option HttpResponse))
    (brand domain : String) : List PartRecord :=
  match items with
  | [] => []
  | it :: rest => extract_with_oem_lookup it.1 brand domain it.2 :: process_batch rest brand domain

/-! ### ReviewGate (app.py lines 314-315)

The source splits the processed frame with the two pandas filters
Confidence_Score >= 70 and Confidence_Score < 70; the threshold parameter
below is instantiated at 70 by the script. -/

/-- The confidence split: (accepted, needs_review). -/
def review_split (records : List PartRecord) (threshold : ℕ) :
    List PartRecord × List PartRecord :=
  (records.filter (fun r => threshold ≤ r.Confidence_Score),
   records.filter (fun r => r.Confidence_Score < threshold))

/-! ### TemplateFormatter (app.py lines 219-267) -/

/-- WEXFSMPipeline.format_for_template: a dict per template choice, none
(the implicit Python None of the fall-through) otherwise.  The markup
literal 1.5 of the source is written 3/2. -/
def format_for_template (r : PartRecord) (template_choice supplier_name : String)
    (labor_rate labor_cost : ℚ) : Option (List (String × CellVal)) :=
  if template_choice = "Part + Labor Bundle" then some
    [("Folder 1\n*Required", .str r.Folder_1),
     ("Folder 2", .str r.Folder_2),
     ("Product Name\n*Required", .str r.Standard_Name),
     ("Is the product Taxable? (Y/N)\n*Required", .str "Y"),
     ("Model Number", .str r.Model_Number),
     ("Description", .str r.Description),
     ("Standard Price \n*Required", .num (r.Cost * (3/2) + r.Labor_Hours * labor_rate)),
     ("Labor Hours", .num r.Labor_Hours),
     ("Labor Rate", .num labor_rate),
     ("Labor Cost", .num (r.Labor_Hours * labor_cost)),
     ("Labor Name\n*Required", .str "Single Part Labor"),
     ("Is the labor Taxable? (Y/N)\n*Required", .str "N"),
     ("Part Name\n*Required", .str r.Standard_Name),
     ("Part Income Account", .str "Sales"),
     ("Is the part Taxable? (Y/N)\n*Required", .str "Y"),
     ("Part Cost", .num r.Cost),
     ("Standard Price", .num (r.Cost * (3/2))),
     ("Part Model Number", .str r.Model_Number),
     ("Serialized? (Y/N)\n*Required", .str "N"),
     ("Part Supplier", .str supplier_name)]
  else if template_choice = "Single Part" then some
    [("Folder 1\n*Required", .str r.Folder_1),
     ("Folder 2", .str r.Folder_2),
     ("Product Name\n*Required", .str r.Standard_Name),
     ("Is the product Taxable? (Y/N)\n*Required", .str "Y"),
     ("Model Number", .str r.Model_Number),
     ("Description", .str r.Description),
     ("Standard Price \n*Required", .num (r.Cost * (3/2))),
     ("Part Name\n*Required", .str r.Standard_Name),
     ("Part Cost", .num r.Cost),
     ("Part Model Number", .str r.Model_Number),
     ("Serialized? (Y/N)\n*Required", .str "N"),
     ("Part Supplier", .str supplier_name)]
  else if template_choice = "Supplier Loader" then some
    [("Supplier Name", .str supplier_name),
     ("Part Number", .str r.Model_Number),
     ("Description", .str r.Description),
     ("Cost", .num r.Cost),
     ("Category", .str r.Folder_2),
     ("Manufacturer", .str r.Manufacturer)]
  else none

/-- Field access in an output row, by output column name. -/
def fieldOf (l : List (String × CellVal)) (k : String) : Option CellVal :=
  (l.find? (fun kv => kv.1 == k)).map (fun kv => kv.2)

/-- Field access through the optional result of format_for_template. -/
def getField (o : Option (List (String × CellVal))) (k : String) : Option CellVal :=
  match o with
  | none => none
  | some l => fieldOf l k

end WexPB

namespace WexPB

/-! ### Shared helper lemmas -/

/-- findSome? over a list all of whose elements map to none is none. -/
theorem findSome_all_none {α β : Type} (f : α → Option β) :
    ∀ (l : List α), (∀ x ∈ l, f x = none) → l.findSome? f = none := by
  intro l h
  induction l with
  | nil => rfl
  | cons a t ih =>
    rw [List.findSome?_cons]
    rw [h a (by simp)]
    exact ih (fun x hx => h x (by simp [hx]))

/-- First-match characterisation of findSome?: when position i yields a
value and every earlier position yields none, findSome? returns that
value. -/
theorem findSome_first {α β : Type} (f : α → Option β) :
    ∀ (l : List α) (i : ℕ) (h : i < l.length) (b : β),
      f (l.get ⟨i, h⟩) = some b →
      (∀ j (hj : j < l.length), j < i → f (l.get ⟨j, hj⟩) = none) →
      l.findSome? f = some b := by
  intro l
  induction l with
  | nil => intro i h; exact absurd h (by simp)
  | cons a t ih =>
    intro i h b hget hbefore
    cases i with
    | zero =>
      rw [List.findSome?_cons, show f a = some b from hget]
    | succ i =>
      rw [List.findSome?_cons]
      have h0 : f a = none := hbefore 0 (by simp) (Nat.succ_pos i)
      rw [h0]
      exact ih i (by simpa using h) b hget
        (fun j hj hji => hbefore (j + 1) (by simpa using hj) (by omega))

/-- A filter and the filter of the pointwise negation split the length of
a list. -/
theorem filter_length_split {α : Type} (p : α → Bool) :
    ∀ l : List α, (l.filter p).length + (l.filter (fun x => !(p x))).length = l.length := by
  intro l
  induction l with
  | nil => rfl
  | cons a t ih =>
    by_cases hp : p a = true
    · simp [List.filter_cons, hp]
      omega
    · simp [List.filter_cons, hp]
      omega

/-- Taking n characters leaves a string of length at most n. -/
theorem strTake_length_le (s : String) (n : ℕ) : (strTake s n).length ≤ n := by
  have : (strTake s n).length = (s.data.take n).length := rfl
  rw [this, List.length_take]
  omega

/-- web_search_part on the exception path, for any part number. -/
theorem web_search_part_none (pn b d : String) : web_search_part pn b d none = ("", 0) := by
  unfold web_search_part
  split <;> rfl

/-- web_search_part with an empty part number, for any oracle. -/
theorem web_search_part_empty (b d : String) (resp : Option HttpResponse) :
    web_search_part "" b d resp = ("", 0) := rfl

/-- The description web_search_part returns is never longer than 300
characters. -/
theorem web_search_part_length (pn b d : String) (resp : Option HttpResponse) :
    (web_search_part pn b d resp).1.length ≤ 300 := by
  unfold web_search_part
  split
  · simp [String.length]
  · match resp with
    | none => simp [String.length]
    | some r =>
      simp only
      split
      · simp [String.length]
      · split
        · split
          · exact le_trans (strTake_length_le _ 200) (by omega)
          · split
            · exact strTake_length_le _ 300
            · simp [String.length]
        · simp [String.length]

/-- The confidence score of the OEM enricher, written with the lookup
call made explicit (the source skips the call when the part number is
empty, which yields the same empty description as the call itself). -/
theorem confidence_eq (row : Row) (b d : String) (resp : Option HttpResponse) :
    (extract_with_oem_lookup row b d resp).Confidence_Score =
      min 100 (60 + (if extract_part_number row ≠ "" then 15 else 0)
                 + (if 0 < extract_price row then 10 else 0)
                 + (if (web_search_part (extract_part_number row) b d resp).1 ≠ "" then 15 else 0)) := by
  unfold extract_with_oem_lookup
  by_cases hpn : extract_part_number row = ""
  · simp [hpn, web_search_part_empty]
  · simp [hpn]

/-- The enrichment status field, written with the lookup call made
explicit. -/
theorem status_eq (row : Row) (b d : String) (resp : Option HttpResponse) :
    (extract_with_oem_lookup row b d resp).OEM_Search_Status =
      (if (web_search_part (extract_part_number row) b d resp).1 ≠ "" then "Found" else "Not Found") := by
  unfold extract_with_oem_lookup
  by_cases hpn : extract_part_number row = ""
  · simp [hpn, web_search_part_empty]
  · simp [hpn]

end WexPB

namespace WexPB

/-! ### Claim C1 — extract_price -/

/-- C1, counterexample to the claimed priority rule: in the row with
cells "X5" then the number 50, a numeric cell greater than 0 exists, yet
extract_price returns 5 (parsed out of the earlier string cell by the
regex fallback), not 50: the numeric cell does not win outright and the
string fallback fires although a positive numeric cell exists. -/
theorem extract_price_numeric_priority_counterexample :
    extract_price [("desc", CellVal.str "X5"), ("cost", CellVal.num 50)] = 5 ∧
    extract_price [("desc", CellVal.str "X5"), ("cost", CellVal.num 50)] ≠ 50 := by
  decide

/-- C1 (amended): extract_price makes one pass over the cells in row
order and returns the value of the first cell that yields one — a numeric
cell greater than 0 yields its value, a string cell yields its leftmost
price-pattern match with thousands separators stripped — so numeric cells
win only over later cells, not over an earlier parseable string cell; it
returns 0.0 when no cell yields a value. -/
theorem extract_price_scan_characterisation :
    ∀ (row : Row),
      ((∀ kv ∈ row, cellPrice kv.2 = none) → extract_price row = 0) ∧
      (∀ (i : ℕ) (h : i < row.length) (v : ℚ),
        cellPrice (row.get ⟨i, h⟩).2 = some v →
        (∀ (j : ℕ) (hj : j < row.length), j < i → cellPrice (row.get ⟨j, hj⟩).2 = none) →
        extract_price row = v) := by
  intro row
  constructor
  · intro hall
    unfold extract_price
    rw [findSome_all_none _ row hall]
    rfl
  · intro i h v hv hbefore
    unfold extract_price
    rw [findSome_first _ row i h v hv hbefore]
    rfl

/-- C1 witness: a row whose only price-bearing cell is the text
"$1,075.52" yields 1075.52. -/
theorem extract_price_scan_characterisation_witness :
    extract_price [("Price", CellVal.str "$1,075.52")] = mkRat 107552 100 :=
  (extract_price_scan_characterisation [("Price", CellVal.str "$1,075.52")]).2 0 (by decide)
    (mkRat 107552 100) (by decide) (fun j hj hj0 => absurd hj0 (Nat.not_lt_zero j))

/-! ### Claim C4 — extract_part_number -/

/-- C4, counterexample: the column "Part" matches the label rule and its
trimmed value "AB" is non-empty and not "nan", yet extract_part_number
returns the empty string, because the source also requires the value to
be longer than 2 characters. -/
theorem extract_part_number_short_value_counterexample :
    extract_part_number [("Part", CellVal.str "AB")] = "" ∧
    extract_part_number [("Part", CellVal.str "AB")] ≠ "AB" := by
  decide

/-- C4 (amended): extract_part_number returns the first trimmed cell
value that is non-empty, longer than 2 characters and not "nan" from a
column whose lowered label contains "model", "part", "item" or "#"; only
when no column yields such a value does it fall back to the first trimmed
cell value of 4 to 20 characters made of upper-case letters, digits and
hyphens; the empty string results when both scans fail.  Column-label
matches take priority over the pattern fallback and within each scan the
first occurrence in row order wins. -/
theorem extract_part_number_characterisation :
    ∀ (row : Row),
      (∀ (i : ℕ) (h : i < row.length) (pn : String),
        colPick (row.get ⟨i, h⟩).1 (row.get ⟨i, h⟩).2 = some pn →
        (∀ (j : ℕ) (hj : j < row.length), j < i →
          colPick (row.get ⟨j, hj⟩).1 (row.get ⟨j, hj⟩).2 = none) →
        extract_part_number row = pn) ∧
      ((∀ kv ∈ row, colPick kv.1 kv.2 = none) →
        (∀ (i : ℕ) (h : i < row.length) (v : String),
          patPick (row.get ⟨i, h⟩).2 = some v →
          (∀ (j : ℕ) (hj : j < row.length), j < i → patPick (row.get ⟨j, hj⟩).2 = none) →
          extract_part_number row = v) ∧
        ((∀ kv ∈ row, patPick kv.2 = none) → extract_part_number row = "")) := by
  intro row
  refine ⟨?_, fun hcol => ⟨?_, ?_⟩⟩
  · intro i h pn hpick hbefore
    unfold extract_part_number
    rw [findSome_first _ row i h pn hpick hbefore]
  · intro i h v hpick hbefore
    unfold extract_part_number
    rw [findSome_all_none _ row hcol, findSome_first _ row i h v hpick hbefore]
  · intro hpat
    unfold extract_part_number
    rw [findSome_all_none _ row hcol, findSome_all_none _ row hpat]

/-- C4 witness: a row with a part-bearing column whose value passes every
check of the column scan. -/
theorem extract_part_number_characterisation_witness :
    extract_part_number [("Part No", CellVal.str " AB-1234 ")] = "AB-1234" :=
  (extract_part_number_characterisation [("Part No", CellVal.str " AB-1234 ")]).1 0 (by decide)
    "AB-1234" (by decide) (fun j hj hj0 => absurd hj0 (Nat.not_lt_zero j))

/-! ### Claim C6 — categorize_part -/

/-- C6: categorize_part lowers its input and returns the first category,
in the declared order of the taxonomy, one of whose keywords is a
substring of the lowered text; when no category matches it returns
"other".  In particular for text matching keywords of two categories the
earlier declared category always wins. -/
theorem categorize_first_match :
    (∀ (text : String) (i : ℕ) (h : i < hvac_categories.length),
      catHit text (hvac_categories.get ⟨i, h⟩) = true →
      (∀ (j : ℕ) (hj : j < hvac_categories.length), j < i →
        catHit text (hvac_categories.get ⟨j, hj⟩) = false) →
      categorize_part text = (hvac_categories.get ⟨i, h⟩).1) ∧
    (∀ text : String, (∀ ck ∈ hvac_categories, catHit text ck = false) →
      categorize_part text = "other") := by
  constructor
  · intro text i h hhit hbefore
    unfold categorize_part
    rw [findSome_first (fun ck => if catHit text ck then some ck.1 else none)
      hvac_categories i h _ (if_pos hhit)
      (fun j hj hji => if_neg (fun hc => by
        rw [hbefore j hj hji] at hc
        exact Bool.false_ne_true hc))]
    rfl
  · intro text hnone
    unfold categorize_part
    rw [findSome_all_none _ _ (fun ck hck => if_neg (by simp [hnone ck hck]))]
    rfl

/-- C6 witness: "scroll compressor" matches the keywords scroll and
compressor of the first declared category and resolves to compressor. -/
theorem categorize_first_match_witness :
    categorize_part "scroll compressor" = "compressor" :=
  categorize_first_match.1 "scroll compressor" 0 (by decide) (by decide)
    (fun j hj hj0 => absurd hj0 (Nat.not_lt_zero j))

/-! ### Claim C8 — find_header_row -/

/-- The indexed header scan returns its counter plus the offset of the
first matching row. -/
theorem findHeaderAux_hit :
    ∀ (df : List (List CellVal)) (n i : ℕ) (h : i < df.length),
      rowHit (df.get ⟨i, h⟩) = true →
      (∀ (j : ℕ) (hj : j < df.length), j < i → rowHit (df.get ⟨j, hj⟩) = false) →
      findHeaderAux df n = n + i := by
  intro df
  induction df with
  | nil => intro n i h; exact absurd h (by simp)
  | cons r rest ih =>
    intro n i h hhit hbefore
    cases i with
    | zero =>
      unfold findHeaderAux
      rw [if_pos (show rowHit r = true from hhit)]
      omega
    | succ i =>
      have h0 : rowHit r = false := hbefore 0 (by simp) (Nat.succ_pos i)
      unfold findHeaderAux
      rw [if_neg (by simp [h0]),
        ih (n + 1) i (by simpa using h) hhit
          (fun j hj hji => hbefore (j + 1) (by simpa using hj) (by omega))]
      omega

/-- The indexed header scan returns the literal 0 when no row matches. -/
theorem findHeaderAux_none :
    ∀ (df : List (List CellVal)) (n : ℕ),
      (∀ r ∈ df, rowHit r = false) → findHeaderAux df n = 0 := by
  intro df
  induction df with
  | nil => intro n _; rfl
  | cons r rest ih =>
    intro n hall
    have h0 : rowHit r = false := hall r (by simp)
    unfold findHeaderAux
    rw [if_neg (by simp [h0])]
    exact ih (n + 1) (fun x hx => hall x (by simp [hx]))

/-- C8: find_header_row scans rows top to bottom and returns the index of
the first row whose concatenated lowered cell text contains a header
keyword, and returns 0 when no row matches. -/
theorem find_header_row_first_match :
    (∀ (df : List (List CellVal)) (i : ℕ) (h : i < df.length),
      rowHit (df.get ⟨i, h⟩) = true →
      (∀ (j : ℕ) (hj : j < df.length), j < i → rowHit (df.get ⟨j, hj⟩) = false) →
      find_header_row df = i) ∧
    (∀ df : List (List CellVal), (∀ r ∈ df, rowHit r = false) → find_header_row df = 0) := by
  constructor
  · intro df i h hhit hbefore
    unfold find_header_row
    rw [findHeaderAux_hit df 0 i h hhit hbefore]
    omega
  · intro df hall
    exact findHeaderAux_none df 0 hall

/-- C8 witness: two keyword-free rows followed by a row containing the
text "Part Number, Description, Price" give header index 2. -/
theorem find_header_row_first_match_witness :
    find_header_row
      [[CellVal.str "", CellVal.str ""],
       [CellVal.str "misc", CellVal.str "junk"],
       [CellVal.str "Part Number, Description, Price", CellVal.str ""]] = 2 :=
  find_header_row_first_match.1 _ 2 (by decide) (by decide) (by decide)

end WexPB

namespace WexPB

/-! ### Claim C2 — OEM confidence score and status -/

/-- C2: the confidence score of the OEM-lookup enricher equals
min(100, 60 + 15 for an extracted part number + 10 for a cost greater
than 0 + 15 for a non-empty looked-up description), and the status is
"Found" exactly when the lookup returned non-empty text. -/
theorem oem_confidence_and_status :
    ∀ (row : Row) (brand domain : String) (resp : Option HttpResponse),
      (extract_with_oem_lookup row brand domain resp).Confidence_Score =
        min 100 (60 + (if extract_part_number row ≠ "" then 15 else 0)
                   + (if 0 < extract_price row then 10 else 0)
                   + (if (web_search_part (extract_part_number row) brand domain resp).1 ≠ ""
                      then 15 else 0)) ∧
      ((extract_with_oem_lookup row brand domain resp).OEM_Search_Status = "Found" ↔
        (web_search_part (extract_part_number row) brand domain resp).1 ≠ "") := by
  intro row b d resp
  refine ⟨confidence_eq row b d resp, ?_⟩
  rw [status_eq]
  by_cases hod : (web_search_part (extract_part_number row) b d resp).1 ≠ ""
  · simp [hod]
  · simp [hod]

/-! ### Claim C3 — lookup failure never escapes, batch totality -/

/-- C3: the enricher is total — with the exception oracle it still
produces a record, whose confidence never exceeds and, whenever the
lookup would have found text, stays strictly below the respective
successful-lookup confidence — and the batch loop produces exactly one
record per ingested row. -/
theorem lookup_failure_degrades_and_batch_total :
    (∀ (items : List (Row × Option HttpResponse)) (brand domain : String),
      (process_batch items brand domain).length = items.length) ∧
    (∀ (row : Row) (brand domain : String) (resp : Option HttpResponse),
      (extract_with_oem_lookup row brand domain none).Confidence_Score ≤
        (extract_with_oem_lookup row brand domain resp).Confidence_Score) ∧
    (∀ (row : Row) (brand domain : String) (resp : Option HttpResponse),
      (web_search_part (extract_part_number row) brand domain resp).1 ≠ "" →
      (extract_with_oem_lookup row brand domain none).Confidence_Score <
        (extract_with_oem_lookup row brand domain resp).Confidence_Score) := by
  refine ⟨?_, ?_, ?_⟩
  · intro items b d
    induction items with
    | nil => rfl
    | cons it rest ih => simp [process_batch, ih]
  · intro row b d resp
    rw [confidence_eq, confidence_eq, web_search_part_none]
    by_cases h1 : extract_part_number row ≠ "" <;>
      by_cases h2 : 0 < extract_price row <;>
        by_cases h3 : (web_search_part (extract_part_number row) b d resp).1 ≠ "" <;>
          simp [h1, h2, h3]
  · intro row b d resp hod
    have hpn : extract_part_number row ≠ "" := by
      intro hpn0
      rw [hpn0, web_search_part_empty] at hod
      exact hod rfl
    rw [confidence_eq, confidence_eq, web_search_part_none]
    by_cases h2 : 0 < extract_price row <;> simp [hpn, h2, hod]

/-- Concrete row for the C3 witness. -/
def wRow : Row := [("Part", CellVal.str "COMP-1234")]

/-- Concrete successful response for the C3 witness. -/
def wResp : HttpResponse :=
  { status := 200
    snippets := ["A compressor snippet"]
    pageText := "" }

/-- C3 witness: simulating a lookup failure on a concrete row yields a
strictly lower confidence than the successful lookup on the same row. -/
theorem lookup_failure_degrades_witness :
    (extract_with_oem_lookup wRow "Carrier" "carrier.com" none).Confidence_Score <
      (extract_with_oem_lookup wRow "Carrier" "carrier.com" (some wResp)).Confidence_Score :=
  lookup_failure_degrades_and_batch_total.2.2 wRow "Carrier" "carrier.com" (some wResp) (by decide)

/-! ### Claim C5 — review gate partition -/

/-- C5: the confidence split is an exhaustive, disjoint, stable
partition: membership in the accepted part is exactly membership in the
input with score at or above the threshold, membership in the review part
is exactly the complement condition, no record is in both, every input
record lands in one of the two, lengths add up, and each part is a
sublist — hence in input order — of the input. -/
theorem review_split_partition :
    ∀ (records : List PartRecord) (threshold : ℕ),
      (∀ r : PartRecord, r ∈ (review_split records threshold).1 ↔
        r ∈ records ∧ threshold ≤ r.Confidence_Score) ∧
      (∀ r : PartRecord, r ∈ (review_split records threshold).2 ↔
        r ∈ records ∧ r.Confidence_Score < threshold) ∧
      (∀ r : PartRecord,
        ¬(r ∈ (review_split records threshold).1 ∧ r ∈ (review_split records threshold).2)) ∧
      (∀ r ∈ records,
        r ∈ (review_split records threshold).1 ∨ r ∈ (review_split records threshold).2) ∧
      ((review_split records threshold).1.length + (review_split records threshold).2.length
        = records.length) ∧
      (review_split records threshold).1.Sublist records ∧
      (review_split records threshold).2.Sublist records := by
  intro rs t
  have hmem1 : ∀ r : PartRecord,
      r ∈ (review_split rs t).1 ↔ r ∈ rs ∧ t ≤ r.Confidence_Score := by
    intro r
    simp [review_split, List.mem_filter]
  have hmem2 : ∀ r : PartRecord,
      r ∈ (review_split rs t).2 ↔ r ∈ rs ∧ r.Confidence_Score < t := by
    intro r
    simp [review_split, List.mem_filter]
  refine ⟨hmem1, hmem2, ?_, ?_, ?_, ?_, ?_⟩
  · intro r hboth
    have h1 := (hmem1 r).mp hboth.1
    have h2 := (hmem2 r).mp hboth.2
    exact Nat.lt_irrefl _ (Nat.lt_of_lt_of_le h2.2 h1.2)
  · intro r hr
    by_cases h : t ≤ r.Confidence_Score
    · exact Or.inl ((hmem1 r).mpr ⟨hr, h⟩)
    · exact Or.inr ((hmem2 r).mpr ⟨hr, by omega⟩)
  · have hq : rs.filter (fun r => decide (r.Confidence_Score < t)) =
        rs.filter (fun r => !(decide (t ≤ r.Confidence_Score))) := by
      apply List.filter_congr
      intro x hx
      by_cases h : t ≤ x.Confidence_Score
      · simp [h]
      · simp [h]
        omega
    show (rs.filter _).length + (rs.filter _).length = rs.length
    rw [hq]
    exact filter_length_split _ rs
  · exact List.filter_sublist rs
  · exact List.filter_sublist rs

/-- Concrete high-confidence record for the C5 witness. -/
def recHi : PartRecord :=
  { Manufacturer := "Carrier"
    Model_Number := "M1"
    Part_Number := "M1"
    Cost := 100
    Folder_1 := "HVAC Components"
    Folder_2 := "Compressor"
    Standard_Name := "Carrier M1"
    Description := "scroll compressor"
    Labor_Hours := 8
    Confidence_Score := 85
    OEM_Search_Status := "Found" }

/-- Concrete low-confidence record for the C5 witness. -/
def recLo : PartRecord :=
  { recHi with Confidence_Score := 60, OEM_Search_Status := "Not Found" }

/-- C5 witness: a concrete input record lands in one of the two parts of
the split at threshold 70, the threshold of the script. -/
theorem review_split_partition_witness :
    recHi ∈ (review_split [recHi, recLo] 70).1 ∨ recHi ∈ (review_split [recHi, recLo] 70).2 :=
  (review_split_partition [recHi, recLo] 70).2.2.2.1 recHi (by decide)

end WexPB

namespace WexPB

/-! ### Claim C7 — Bundle template pricing -/

/-- Concrete record for the C7 round-trip: cost 100, labor hours 2. -/
def sampleBundleRecord : PartRecord :=
  { Manufacturer := "Carrier"
    Model_Number := "ZP31K5E"
    Part_Number := "ZP31K5E"
    Cost := 100
    Folder_1 := "HVAC Components"
    Folder_2 := "Compressor"
    Standard_Name := "Carrier ZP31K5E"
    Description := "scroll compressor"
    Labor_Hours := 2
    Confidence_Score := 85
    OEM_Search_Status := "Found" }

/-- C7: in the Bundle template the required Standard Price field equals
cost times 1.5 plus labor hours times the labor rate, the Labor Cost
field equals labor hours times the internal labor cost, the part line
carries the raw cost, and the part Standard Price equals cost times 1.5;
at cost 100, labor hours 2, labor rate 141.43 and labor cost 54.40 the
two computed fields are 432.86 and 108.80. -/
theorem bundle_template_prices :
    ∀ (r : PartRecord) (supplier : String) (labor_rate labor_cost : ℚ),
      getField (format_for_template r "Part + Labor Bundle" supplier labor_rate labor_cost)
          "Standard Price \n*Required"
        = some (CellVal.num (r.Cost * (3/2) + r.Labor_Hours * labor_rate)) ∧
      getField (format_for_template r "Part + Labor Bundle" supplier labor_rate labor_cost)
          "Labor Cost"
        = some (CellVal.num (r.Labor_Hours * labor_cost)) ∧
      getField (format_for_template r "Part + Labor Bundle" supplier labor_rate labor_cost)
          "Part Cost"
        = some (CellVal.num r.Cost) ∧
      getField (format_for_template r "Part + Labor Bundle" supplier labor_rate labor_cost)
          "Standard Price"
        = some (CellVal.num (r.Cost * (3/2))) ∧
      getField (format_for_template sampleBundleRecord "Part + Labor Bundle" "Glacier Supply"
          (14143/100) (272/5)) "Standard Price \n*Required"
        = some (CellVal.num (43286/100)) ∧
      getField (format_for_template sampleBundleRecord "Part + Labor Bundle" "Glacier Supply"
          (14143/100) (272/5)) "Labor Cost"
        = some (CellVal.num (544/5)) := by
  intro r s lr lc
  refine ⟨rfl, rfl, rfl, rfl, ?_, ?_⟩
  · have h0 : getField (format_for_template sampleBundleRecord "Part + Labor Bundle"
        "Glacier Supply" (14143/100) (272/5)) "Standard Price \n*Required"
        = some (CellVal.num (sampleBundleRecord.Cost * (3/2)
            + sampleBundleRecord.Labor_Hours * (14143/100))) := rfl
    rw [h0, show sampleBundleRecord.Cost = 100 from rfl,
      show sampleBundleRecord.Labor_Hours = 2 from rfl]
    norm_num
  · have h1 : getField (format_for_template sampleBundleRecord "Part + Labor Bundle"
        "Glacier Supply" (14143/100) (272/5)) "Labor Cost"
        = some (CellVal.num (sampleBundleRecord.Labor_Hours * (272/5))) := rfl
    rw [h1, show sampleBundleRecord.Labor_Hours = 2 from rfl]
    norm_num

/-! ### Claim C9 — description length bound -/

/-- A page text of exactly 300 characters starting with the part number
of cRow9. -/
def longPage : String := "ABCD" ++ ⟨List.replicate 296 'x'⟩

/-- Concrete row for the C9 counterexample. -/
def cRow9 : Row := [("Part", CellVal.str "ABCD")]

set_option maxRecDepth 100000 in
/-- C9, counterexample to the claimed bound of about 150 to 200
characters: when the lookup finds no snippet and falls back to the page
text, the stored description is truncated at 300 characters, and a
300-character description is reachable. -/
theorem description_length_counterexample :
    (extract_with_oem_lookup cRow9 "Carrier" "carrier.com"
        (some { status := 200, snippets := [], pageText := longPage })).Description.length
      = 300 ∧
    ¬(extract_with_oem_lookup cRow9 "Carrier" "carrier.com"
        (some { status := 200, snippets := [], pageText := longPage })).Description.length
      ≤ 200 := by
  decide

/-- C9 (amended): the description of an enriched record is bounded by
300 characters — 200 when it comes from a search snippet, 150 when it
comes from the rendered row text, and up to 300 on the page-text fallback
path of the lookup. -/
theorem description_length_bound :
    ∀ (row : Row) (brand domain : String) (resp : Option HttpResponse),
      (extract_with_oem_lookup row brand domain resp).Description.length ≤ 300 := by
  intro row b d resp
  have hdesc : (extract_with_oem_lookup row b d resp).Description
      = (if (if extract_part_number row ≠ "" then
              (web_search_part (extract_part_number row) b d resp).1 else "") ≠ ""
         then (if extract_part_number row ≠ "" then
              (web_search_part (extract_part_number row) b d resp).1 else "")
         else strTake (textRepr row) 150) := rfl
  rw [hdesc]
  by_cases hpn : extract_part_number row ≠ ""
  · rw [if_pos hpn]
    by_cases hod : (web_search_part (extract_part_number row) b d resp).1 ≠ ""
    · rw [if_pos hod]
      exact web_search_part_length _ b d resp
    · rw [if_neg hod]
      exact le_trans (strTake_length_le _ 150) (by omega)
  · rw [if_neg hpn, if_neg (fun hc => hc rfl)]
    exact le_trans (strTake_length_le _ 150) (by omega)

/-! ### Claim C10 — unknown template choice -/

/-- C10: for any template choice other than the three literal template
names, format_for_template falls through every branch and produces no
output row at all. -/
theorem format_unknown_template_none :
    ∀ (r : PartRecord) (template_choice supplier : String) (labor_rate labor_cost : ℚ),
      template_choice ≠ "Part + Labor Bundle" →
      template_choice ≠ "Single Part" →
      template_choice ≠ "Supplier Loader" →
      format_for_template r template_choice supplier labor_rate labor_cost = none := by
  intro r tc s lr lc h1 h2 h3
  unfold format_for_template
  rw [if_neg h1, if_neg h2, if_neg h3]

/-- C10 witness: the template choice "CSV Export" is none of the three
literals and yields no output row. -/
theorem format_unknown_template_none_witness :
    format_for_template sampleBundleRecord "CSV Export" "Glacier Supply" 1 1 = none :=
  format_unknown_template_none sampleBundleRecord "CSV Export" "Glacier Supply" 1 1
    (by decide) (by decide) (by decide)

end WexPB
